import Mathlib

/-!
Shallow embedding of the Pinia task store of the task-manager UI
(`useTaskStore`): state, getters and actions, with the HTTP transport
modelled as an explicit `Except` response (or, for `updateTask`, a
response function of the request payload, since the PUT body is built
from the caller's data).  JavaScript values relevant to the store
(ids, field values, the filter) are modelled by `JSVal` with explicit
truthiness, so that `task.id || task._id` and `!task.completed` keep
their JavaScript meaning.
-/

namespace TaskManager

/-- A JavaScript value as the store manipulates them: `undefined`, `null`,
booleans, (integer) numbers and strings. -/
inductive JSVal where
  | undef : JSVal
  | null : JSVal
  | bool : Bool → JSVal
  | num : Int → JSVal
  | str : String → JSVal
deriving DecidableEq, Repr

/-- JavaScript truthiness of a `JSVal`. -/
def truthy : JSVal → Bool
  | .undef => false
  | .null => false
  | .bool b => b
  | .num n => n != 0
  | .str s => s != ""

/-- JavaScript `a || b`: returns `a` when truthy, otherwise `b`. -/
def jsOr (a b : JSVal) : JSVal := if truthy a then a else b

/-- A task object as stored in the state.  An absent field is `undef`. -/
structure Task where
  id : JSVal
  _id : JSVal
  title : JSVal
  description : JSVal
  completed : JSVal
deriving DecidableEq, Repr

/-- `{...task, id: task.id || task._id}` — the id normalization applied in
`fetchTasks`, `createTask` and `updateTask`.  The spread keeps every other
field, `_id` included. -/
def normalizeId (t : Task) : Task := { t with id := jsOr t.id t._id }

/-- The store state (`state: () => ({ tasks, loading, error, filter })`). -/
structure StoreState where
  tasks : List Task
  loading : Bool
  error : Option String
  filter : JSVal
deriving DecidableEq, Repr

/-- The initial store state. -/
def initialState : StoreState :=
  { tasks := [], loading := false, error := none, filter := .str "all" }

/-- The id lookup used by `updateTask`, `toggleTaskCompletion` and
`deleteTask`: `task._id === id || task.id === id`. -/
def matchesId (i : JSVal) (t : Task) : Bool := t._id == i || t.id == i

/-- The synchronous prefix shared by the four network actions:
`this.loading = true; this.error = null`. -/
def beginAction (st : StoreState) : StoreState :=
  { st with loading := true, error := none }

/-- `fetchTasks()`: GETs the collection; on success replaces `tasks` with
the normalized response; on failure stores a fixed message in `error` and
swallows the failure (the returned `Except` is always `ok`).  `loading` is
cleared in `finally`. -/
def fetchTasks (st : StoreState) (resp : Except Unit (List Task)) :
    StoreState × Except Unit Unit :=
  let st1 := beginAction st
  match resp with
  | .ok data =>
      ({ st1 with tasks := data.map normalizeId, loading := false }, .ok ())
  | .error _ =>
      ({ st1 with
          error := some "Failed to load tasks. Please check if the backend is running.",
          loading := false }, .ok ())

/-- `createTask(taskData)`: POSTs the draft; on success appends the
normalized response task to `tasks`; on failure stores a fixed message in
`error` and re-throws (the returned `Except` is the error). -/
def createTask (st : StoreState) (resp : Except Unit Task) :
    StoreState × Except Unit Unit :=
  let st1 := beginAction st
  match resp with
  | .ok data =>
      ({ st1 with tasks := st1.tasks ++ [normalizeId data], loading := false }, .ok ())
  | .error e =>
      ({ st1 with
          error := some "Failed to create task. Please try again.",
          loading := false }, .error e)

/-- The PUT body of `updateTask`:
`const { title, description, completed } = taskData; const payload = { title, description, completed }`. -/
structure UpdatePayload where
  title : JSVal
  description : JSVal
  completed : JSVal
deriving DecidableEq, Repr

/-- Builds the PUT body from the caller's `taskData`. -/
def buildUpdatePayload (taskData : Task) : UpdatePayload :=
  { title := taskData.title, description := taskData.description,
    completed := taskData.completed }

/-- `updateTask(id, taskData)`: PUTs exactly the three updatable fields
(the `server` function sees only the payload); on success replaces the
first task matching `id` (on `_id` or `id`) in place with the normalized
response, or does nothing to `tasks` when none matches; on failure stores
a fixed message in `error` and re-throws. -/
def updateTask (st : StoreState) (i : JSVal) (taskData : Task)
    (server : UpdatePayload → Except Unit Task) :
    StoreState × Except Unit Unit :=
  let st1 := beginAction st
  match server (buildUpdatePayload taskData) with
  | .ok data =>
      match st1.tasks.findIdx? (fun t => matchesId i t) with
      | some idx =>
          ({ st1 with
              tasks := st1.tasks.set idx (normalizeId data),
              loading := false }, .ok ())
      | none => ({ st1 with loading := false }, .ok ())
  | .error e =>
      ({ st1 with
          error := some "Failed to update task. Please try again.",
          loading := false }, .error e)

/-- `toggleTaskCompletion(id)`: looks the task up by `_id`/`id`; when
absent, returns without touching the state; otherwise delegates to
`updateTask` with `title`/`description` unchanged and `completed`
inverted (`!task.completed`, a boolean).  A failure of the delegated
update is caught: only the resulting state is returned, no failure is
re-signaled. -/
def toggleTaskCompletion (st : StoreState) (i : JSVal)
    (server : UpdatePayload → Except Unit Task) : StoreState :=
  match st.tasks.find? (fun t => matchesId i t) with
  | none => st
  | some task =>
      (updateTask st i
        { id := .undef, _id := .undef, title := task.title,
          description := task.description,
          completed := .bool (!truthy task.completed) } server).1

/-- `deleteTask(id)`: DELETEs the resource; on success keeps exactly the
tasks with `task._id !== id && task.id !== id`; on failure stores a fixed
message in `error` and re-throws. -/
def deleteTask (st : StoreState) (i : JSVal) (resp : Except Unit Unit) :
    StoreState × Except Unit Unit :=
  let st1 := beginAction st
  match resp with
  | .ok _ =>
      ({ st1 with
          tasks := st1.tasks.filter (fun t => t._id != i && t.id != i),
          loading := false }, .ok ())
  | .error e =>
      ({ st1 with
          error := some "Failed to delete task. Please try again.",
          loading := false }, .error e)

/-- `setFilter(filter)`: stores the argument as-is, nothing else. -/
def setFilter (st : StoreState) (f : JSVal) : StoreState :=
  { st with filter := f }

/-- Getter `filteredTasks`. -/
def filteredTasks (st : StoreState) : List Task :=
  if st.filter == .str "active" then
    st.tasks.filter (fun t => !truthy t.completed)
  else if st.filter == .str "completed" then
    st.tasks.filter (fun t => truthy t.completed)
  else st.tasks

/-- Getter `activeTasksCount`. -/
def activeTasksCount (st : StoreState) : Nat :=
  (st.tasks.filter (fun t => !truthy t.completed)).length

/-- Getter `completedTasksCount`. -/
def completedTasksCount (st : StoreState) : Nat :=
  (st.tasks.filter (fun t => truthy t.completed)).length

/-- A boolean predicate and its negation partition a list's length. -/
theorem length_filter_not_add_length_filter (l : List Task) (p : Task → Bool) :
    (l.filter (fun t => !p t)).length + (l.filter p).length = l.length := by
  induction l with
  | nil => rfl
  | cons a l ih =>
      by_cases h : p a <;> simp [List.filter, h] <;> omega

/-- Claim C6: for every store state, `activeTasksCount` plus
`completedTasksCount` equals the length of `tasks`, since the two getters
count the falsy-`completed` and truthy-`completed` tasks respectively. -/
theorem counts_partition_length (st : StoreState) :
    activeTasksCount st + completedTasksCount st = st.tasks.length ∧
    activeTasksCount st = (st.tasks.filter (fun t => !truthy t.completed)).length ∧
    completedTasksCount st = (st.tasks.filter (fun t => truthy t.completed)).length := by
  refine ⟨?_, rfl, rfl⟩
  exact length_filter_not_add_length_filter st.tasks (fun t => truthy t.completed)

/-- Claim C1: `fetchTasks` starts by setting `loading = true` and
`error = null`; on a successful GET of `data` it replaces `tasks` wholesale
with the id-normalized sequence (so the length is `data.length`), with
`error = null` and `loading = false`; on failure it sets the fixed message,
leaves `tasks` unchanged, swallows the failure (the result is `ok`), and
`loading = false`. -/
theorem fetchTasks_contract (st : StoreState) (data : List Task) (e : Unit) :
    (beginAction st).loading = true ∧
    (beginAction st).error = none ∧
    (fetchTasks st (.ok data)).1.tasks = data.map normalizeId ∧
    (fetchTasks st (.ok data)).1.tasks.length = data.length ∧
    (fetchTasks st (.ok data)).1.error = none ∧
    (fetchTasks st (.ok data)).1.loading = false ∧
    (fetchTasks st (.error e)).1.error =
      some "Failed to load tasks. Please check if the backend is running." ∧
    (fetchTasks st (.error e)).1.tasks = st.tasks ∧
    (fetchTasks st (.error e)).2 = .ok () ∧
    (fetchTasks st (.error e)).1.loading = false := by
  refine ⟨rfl, rfl, rfl, ?_, rfl, rfl, rfl, rfl, rfl, rfl⟩
  simp [fetchTasks, beginAction]

/-- Claim C2: `createTask` on success appends the single id-normalized
response task at the end of `tasks` (the prefix of the old length is
untouched, the length grows by one); on failure `tasks` is unchanged,
`error` carries the fixed create message, and the failure is re-thrown. -/
theorem createTask_contract (st : StoreState) (data : Task) (e : Unit) :
    (createTask st (.ok data)).1.tasks = st.tasks ++ [normalizeId data] ∧
    (createTask st (.ok data)).1.tasks.length = st.tasks.length + 1 ∧
    (createTask st (.ok data)).1.tasks.take st.tasks.length = st.tasks ∧
    (createTask st (.ok data)).1.tasks.getLast? = some (normalizeId data) ∧
    (createTask st (.error e)).1.tasks = st.tasks ∧
    (createTask st (.error e)).1.tasks.length = st.tasks.length ∧
    (createTask st (.error e)).1.error = some "Failed to create task. Please try again." ∧
    (createTask st (.error e)).2 = .error e := by
  refine ⟨rfl, ?_, ?_, ?_, rfl, rfl, rfl, rfl⟩
  · simp [createTask, beginAction]
  · simp [createTask, beginAction]
  · simp [createTask, beginAction]

/-- A concrete task used to instantiate the contract theorems. -/
def sampleTask : Task :=
  { id := .str "a", _id := .str "a", title := .str "x",
    description := .str "y", completed := .bool false }

/-- A concrete server response task. -/
def sampleTask2 : Task :=
  { id := .str "b", _id := .undef, title := .str "z",
    description := .str "w", completed := .bool true }

/-- A concrete one-task store state. -/
def sampleState : StoreState :=
  { tasks := [sampleTask], loading := false, error := none, filter := .str "all" }

/-- A server that always succeeds with `sampleTask2`. -/
def serverOk : UpdatePayload → Except Unit Task := fun _ => .ok sampleTask2

/-- A server that always fails. -/
def serverErr : UpdatePayload → Except Unit Task := fun _ => .error ()

/-- Claim C3: the PUT body of `updateTask` is exactly the three fields
`title`, `description`, `completed` of `taskData` (so the result depends on
`taskData` only through them); on success, when `findIdx?` locates a first
match (a task matching on `_id` or `id`, every earlier task not matching),
that position is replaced by the normalized server response and every other
position is unchanged; when no task matches, `tasks` is left unchanged; on
failure, `error` is set and the failure is re-thrown. -/
theorem updateTask_contract (st : StoreState) (i : JSVal) (d1 d2 data : Task)
    (server : UpdatePayload → Except Unit Task) (idx : Nat) (e : Unit) :
    buildUpdatePayload d1 =
      { title := d1.title, description := d1.description, completed := d1.completed } ∧
    (d1.title = d2.title → d1.description = d2.description → d1.completed = d2.completed →
      updateTask st i d1 server = updateTask st i d2 server) ∧
    (st.tasks.findIdx? (fun t => matchesId i t) = some idx →
      ∃ h : idx < st.tasks.length,
        matchesId i (st.tasks.get ⟨idx, h⟩) = true ∧
        ∀ j (hj : j < idx), matchesId i (st.tasks.get ⟨j, Nat.lt_trans hj h⟩) = false) ∧
    (server (buildUpdatePayload d1) = .ok data →
      st.tasks.findIdx? (fun t => matchesId i t) = some idx →
      (updateTask st i d1 server).1.tasks = st.tasks.set idx (normalizeId data) ∧
      (∀ j : Nat, j ≠ idx →
        (updateTask st i d1 server).1.tasks[j]? = st.tasks[j]?) ∧
      (updateTask st i d1 server).2 = .ok ()) ∧
    (server (buildUpdatePayload d1) = .ok data →
      st.tasks.findIdx? (fun t => matchesId i t) = none →
      (updateTask st i d1 server).1.tasks = st.tasks ∧
      (updateTask st i d1 server).2 = .ok ()) ∧
    (server (buildUpdatePayload d1) = .error e →
      (updateTask st i d1 server).1.error =
        some "Failed to update task. Please try again." ∧
      (updateTask st i d1 server).1.tasks = st.tasks ∧
      (updateTask st i d1 server).2 = .error e) := by
  refine ⟨rfl, ?_, ?_, ?_, ?_, ?_⟩
  · intro h1 h2 h3
    unfold updateTask buildUpdatePayload
    rw [h1, h2, h3]
  · intro hfind
    rcases List.findIdx?_eq_some_iff_getElem.1 hfind with ⟨h, hp, hlt⟩
    exact ⟨h, by simpa using hp, fun j hj => by simpa using hlt j hj⟩
  · intro hs hfind
    unfold updateTask
    rw [hs]
    dsimp only [beginAction]
    rw [hfind]
    refine ⟨rfl, fun j hj => ?_, rfl⟩
    exact List.getElem?_set_ne (fun h => hj h.symm)
  · intro hs hfind
    unfold updateTask
    rw [hs]
    dsimp only [beginAction]
    rw [hfind]
    exact ⟨rfl, rfl⟩
  · intro hs
    unfold updateTask
    rw [hs]
    exact ⟨rfl, rfl, rfl⟩

/-- Witness for C3: the contract evaluated at a concrete state, task and
servers — an in-place replacement, a no-op on an unknown id, and a
re-thrown failure. -/
theorem updateTask_contract_witness :
    (updateTask sampleState (.str "a") sampleTask serverOk).1.tasks
      = [normalizeId sampleTask2] ∧
    (updateTask sampleState (.str "q") sampleTask serverOk).1.tasks
      = sampleState.tasks ∧
    (updateTask sampleState (.str "a") sampleTask serverErr).1.error
      = some "Failed to update task. Please try again." := by
  have hmatch :=
    (updateTask_contract sampleState (.str "a") sampleTask sampleTask sampleTask2
      serverOk 0 ()).2.2.2.1 rfl (by decide)
  have hmiss :=
    (updateTask_contract sampleState (.str "q") sampleTask sampleTask sampleTask2
      serverOk 0 ()).2.2.2.2.1 rfl (by decide)
  have herr :=
    (updateTask_contract sampleState (.str "a") sampleTask sampleTask sampleTask2
      serverErr 0 ()).2.2.2.2.2 rfl
  exact ⟨hmatch.1, hmiss.1, herr.1⟩

/-- Claim C4: when no task matches the id (on `_id` or `id`),
`toggleTaskCompletion` returns the state untouched (no field mutated, no
error set, nothing thrown); when a task matches, it delegates to
`updateTask` with the same `title`/`description` and `completed` inverted;
a failure of the delegated update is absorbed into the state (error field
set, `tasks` unchanged, `loading` cleared) and never re-thrown — the
function returns a plain state, not a throwing result. -/
theorem toggleTaskCompletion_contract (st : StoreState) (i : JSVal) (task : Task)
    (server : UpdatePayload → Except Unit Task) :
    (st.tasks.find? (fun t => matchesId i t) = none →
      toggleTaskCompletion st i server = st) ∧
    (st.tasks.find? (fun t => matchesId i t) = some task →
      toggleTaskCompletion st i server =
        (updateTask st i
          { id := .undef, _id := .undef, title := task.title,
            description := task.description,
            completed := .bool (!truthy task.completed) } server).1) ∧
    (st.tasks.find? (fun t => matchesId i t) = some task →
      server { title := task.title, description := task.description,
               completed := .bool (!truthy task.completed) } = .error () →
      (toggleTaskCompletion st i server).tasks = st.tasks ∧
      (toggleTaskCompletion st i server).error =
        some "Failed to update task. Please try again." ∧
      (toggleTaskCompletion st i server).loading = false) := by
  refine ⟨?_, ?_, ?_⟩
  · intro hfind
    unfold toggleTaskCompletion
    rw [hfind]
  · intro hfind
    unfold toggleTaskCompletion
    rw [hfind]
  · intro hfind hsrv
    have heq : toggleTaskCompletion st i server =
        (updateTask st i
          { id := .undef, _id := .undef, title := task.title,
            description := task.description,
            completed := .bool (!truthy task.completed) } server).1 := by
      unfold toggleTaskCompletion
      rw [hfind]
    rw [heq]
    unfold updateTask
    rw [show buildUpdatePayload
        { id := .undef, _id := .undef, title := task.title,
          description := task.description,
          completed := .bool (!truthy task.completed) } =
      ({ title := task.title, description := task.description,
         completed := .bool (!truthy task.completed) } : UpdatePayload) from rfl]
    rw [hsrv]
    exact ⟨rfl, rfl, rfl⟩

/-- Witness for C4: the contract at a concrete state — an unknown id leaves
the state untouched, a known id with a failing delegated update leaves
`tasks` unchanged with the update-failure message recorded. -/
theorem toggleTaskCompletion_contract_witness :
    toggleTaskCompletion sampleState (.str "q") serverOk = sampleState ∧
    (toggleTaskCompletion sampleState (.str "a") serverErr).tasks
      = sampleState.tasks ∧
    (toggleTaskCompletion sampleState (.str "a") serverErr).error
      = some "Failed to update task. Please try again." := by
  have hmiss :=
    (toggleTaskCompletion_contract sampleState (.str "q") sampleTask serverOk).1
      (by decide)
  have herr :=
    (toggleTaskCompletion_contract sampleState (.str "a") sampleTask serverErr).2.2
      (by decide) rfl
  exact ⟨hmiss, herr.1, herr.2.1⟩

/-- Claim C5: a successful `deleteTask` keeps exactly the tasks matching
neither on `_id` nor on `id` (so every match is removed, not only the
first, no surviving task matches, non-matching tasks all survive, and the
relative order is preserved: the result is a sublist); on failure `tasks`
keeps its previous value — removal only happens after backend confirmation
— `error` carries the fixed delete message and the failure is re-thrown. -/
theorem deleteTask_contract (st : StoreState) (i : JSVal) (e : Unit) :
    (deleteTask st i (.ok ())).1.tasks =
      st.tasks.filter (fun t => !matchesId i t) ∧
    (∀ t ∈ (deleteTask st i (.ok ())).1.tasks, matchesId i t = false) ∧
    List.Sublist (deleteTask st i (.ok ())).1.tasks st.tasks ∧
    (∀ t ∈ st.tasks, matchesId i t = false →
      t ∈ (deleteTask st i (.ok ())).1.tasks) ∧
    (deleteTask st i (.error e)).1.tasks = st.tasks ∧
    (deleteTask st i (.error e)).1.error =
      some "Failed to delete task. Please try again." ∧
    (deleteTask st i (.error e)).2 = .error e := by
  have hfun : (fun t => t._id != i && t.id != i) = fun t => !matchesId i t := by
    funext t
    simp [matchesId, Bool.not_or, bne]
  have htasks : (deleteTask st i (.ok ())).1.tasks =
      st.tasks.filter (fun t => !matchesId i t) := by
    unfold deleteTask
    dsimp only [beginAction]
    rw [hfun]
  refine ⟨htasks, ?_, ?_, ?_, rfl, rfl, rfl⟩
  · intro t ht
    rw [htasks] at ht
    have := (List.mem_filter.1 ht).2
    simpa using this
  · rw [htasks]
    exact List.filter_sublist st.tasks
  · intro t ht hnm
    rw [htasks]
    exact List.mem_filter.2 ⟨ht, by simp [hnm]⟩

/-- Witness for C5: deleting id "a" from the concrete one-task state — the
matching task is gone (membership clause instantiated at the surviving
state of a two-task variant), the non-matching task survives, and the
failing delete leaves the list intact. -/
theorem deleteTask_contract_witness :
    (deleteTask sampleState (.str "a") (.ok ())).1.tasks = [] ∧
    sampleTask ∈ (deleteTask sampleState (.str "q") (.ok ())).1.tasks ∧
    matchesId (.str "q") sampleTask = false ∧
    (deleteTask sampleState (.str "a") (.error ())).1.tasks = sampleState.tasks := by
  have h1 := (deleteTask_contract sampleState (.str "a") ()).1
  have h2 := (deleteTask_contract sampleState (.str "q") ()).2.2.2.1 sampleTask
    (by decide) (by decide)
  have h3 := (deleteTask_contract sampleState (.str "a") ()).2.2.2.2.1
  exact ⟨by rw [h1]; decide, h2, by decide, h3⟩

/-- Claim C7: `setFilter` stores its argument as-is and changes nothing
else; `filteredTasks` returns the falsy-`completed` tasks under filter
"active", the truthy-`completed` tasks under filter "completed", and the
whole list for any other filter value; in every case the result is a
sublist of `tasks` in the current order. -/
theorem setFilter_filteredTasks_contract (st : StoreState) (f : JSVal) :
    (setFilter st f).filter = f ∧
    (setFilter st f).tasks = st.tasks ∧
    (setFilter st f).loading = st.loading ∧
    (setFilter st f).error = st.error ∧
    (st.filter = .str "active" →
      filteredTasks st = st.tasks.filter (fun t => !truthy t.completed)) ∧
    (st.filter = .str "completed" →
      filteredTasks st = st.tasks.filter (fun t => truthy t.completed)) ∧
    (st.filter ≠ .str "active" → st.filter ≠ .str "completed" →
      filteredTasks st = st.tasks) ∧
    List.Sublist (filteredTasks st) st.tasks := by
  refine ⟨rfl, rfl, rfl, rfl, ?_, ?_, ?_, ?_⟩
  · intro h
    simp [filteredTasks, h]
  · intro h
    simp [filteredTasks, h]
  · intro h1 h2
    simp [filteredTasks, beq_iff_eq, h1, h2]
  · unfold filteredTasks
    split
    · exact List.filter_sublist st.tasks
    · split
      · exact List.filter_sublist st.tasks
      · exact List.Sublist.refl st.tasks

/-- Witness for C7: the three filter regimes evaluated on a concrete state
holding one active task. -/
theorem setFilter_filteredTasks_contract_witness :
    (setFilter sampleState (.num 7)).filter = .num 7 ∧
    filteredTasks { sampleState with filter := .str "active" } = [sampleTask] ∧
    filteredTasks { sampleState with filter := .str "completed" } = [] ∧
    filteredTasks { sampleState with filter := .num 7 } = sampleState.tasks := by
  have h1 := (setFilter_filteredTasks_contract sampleState (.num 7)).1
  have h2 := (setFilter_filteredTasks_contract
    { sampleState with filter := .str "active" } (.num 7)).2.2.2.2.1 rfl
  have h3 := (setFilter_filteredTasks_contract
    { sampleState with filter := .str "completed" } (.num 7)).2.2.2.2.2.1 rfl
  have h4 := (setFilter_filteredTasks_contract
    { sampleState with filter := .num 7 } (.num 7)).2.2.2.2.2.2.1
    (by decide) (by decide)
  exact ⟨h1, by rw [h2]; decide, by rw [h3]; decide, h4⟩

/-- Claim C9: each of the four network actions clears `loading` on every
completion path, success or failure. -/
theorem loading_always_cleared (st : StoreState) (rf : Except Unit (List Task))
    (rc : Except Unit Task) (i : JSVal) (d : Task)
    (server : UpdatePayload → Except Unit Task) (rd : Except Unit Unit) :
    (fetchTasks st rf).1.loading = false ∧
    (createTask st rc).1.loading = false ∧
    (updateTask st i d server).1.loading = false ∧
    (deleteTask st i rd).1.loading = false := by
  refine ⟨?_, ?_, ?_, ?_⟩
  · cases rf <;> rfl
  · cases rc <;> rfl
  · unfold updateTask
    cases server (buildUpdatePayload d) with
    | ok data =>
        cases h : (beginAction st).tasks.findIdx? (fun t => matchesId i t) <;>
          simp [h]
    | error e => rfl
  · cases rd <;> rfl

/-- Counterexample to C8: after normalization the stored task still carries
its legacy `_id` field (the spread keeps it), and the store's lookups still
compare it — deleting by the legacy value "y", which is no task's canonical
id (the canonical id is "x"), removes the task. -/
theorem legacy_id_retained_counterexample :
    (normalizeId
      { id := .str "x", _id := .str "y", title := .str "t",
        description := .str "d", completed := .bool false })._id = .str "y" ∧
    (normalizeId
      { id := .str "x", _id := .str "y", title := .str "t",
        description := .str "d", completed := .bool false }).id = .str "x" ∧
    (deleteTask
      { tasks := [normalizeId
          { id := .str "x", _id := .str "y", title := .str "t",
            description := .str "d", completed := .bool false }],
        loading := false, error := none, filter := .str "all" }
      (.str "y") (.ok ())).1.tasks = [] := by
  decide

/-- Amended C8: every task stored by `fetchTasks`, `createTask` or
`updateTask` bears a canonical `id` computed by normalization, but the
legacy `_id` field is retained on the stored objects by the spread and is
still consulted by the id lookups of `updateTask`, `toggleTaskCompletion`
and `deleteTask`, which match on `_id` or `id`. -/
theorem canonical_id_with_legacy_retained (t d : Task) (st : StoreState)
    (data : List Task) (i : JSVal) :
    (normalizeId t).id = jsOr t.id t._id ∧
    (normalizeId t)._id = t._id ∧
    (fetchTasks st (.ok data)).1.tasks = data.map normalizeId ∧
    (createTask st (.ok d)).1.tasks = st.tasks ++ [normalizeId d] ∧
    ((t._id == i) = true → matchesId i t = true) ∧
    (deleteTask st i (.ok ())).1.tasks =
      st.tasks.filter (fun x => !matchesId i x) := by
  refine ⟨rfl, rfl, rfl, rfl, ?_, ?_⟩
  · intro h
    simp [matchesId, h]
  · have hfun : (fun x : Task => x._id != i && x.id != i) =
        fun x => !matchesId i x := by
      funext x
      simp [matchesId, Bool.not_or, bne]
    unfold deleteTask
    dsimp only [beginAction]
    rw [hfun]

/-- Witness for amended C8: the lookup matches `sampleTask` on its `_id`
value, and normalization keeps `sampleTask2`'s (absent) legacy field. -/
theorem canonical_id_with_legacy_retained_witness :
    matchesId (.str "a") sampleTask = true ∧
    (normalizeId sampleTask2)._id = .undef := by
  have h := (canonical_id_with_legacy_retained sampleTask sampleTask
    initialState [] (.str "a")).2.2.2.2.1 (by decide)
  have h2 := (canonical_id_with_legacy_retained sampleTask2 sampleTask
    initialState [] (.str "a")).2.1
  exact ⟨h, h2⟩

/-- Counterexample to C10's final clause: with `id` absent (undefined,
falsy) and `_id` the falsy number 0, both fields are falsy, yet the stored
id is 0 — `_id`'s value — not undefined. -/
theorem falsy_both_fields_counterexample :
    truthy JSVal.undef = false ∧
    truthy (JSVal.num 0) = false ∧
    (normalizeId
      { id := .undef, _id := .num 0, title := .undef,
        description := .undef, completed := .undef }).id = .num 0 ∧
    JSVal.num 0 ≠ JSVal.undef := by
  decide

/-- Amended C10: normalization computes `task.id || task._id` by JavaScript
truthiness — whenever `id` is falsy (for example 0 or the empty string) the
stored id is `_id`'s value whatever it is, so falsy backend-assigned ids
are not preserved; the stored id is undefined exactly when `id` is falsy
and `_id` is itself undefined (for example when both are absent), not
whenever both are falsy. -/
theorem id_normalization_truthiness (t : Task) :
    (normalizeId t).id = (if truthy t.id then t.id else t._id) ∧
    (truthy t.id = false → (normalizeId t).id = t._id) ∧
    (truthy t.id = true → (normalizeId t).id = t.id) ∧
    (normalizeId
      { id := .num 0, _id := .str "abc", title := .undef,
        description := .undef, completed := .undef }).id = .str "abc" ∧
    (normalizeId
      { id := .str "", _id := .str "abc", title := .undef,
        description := .undef, completed := .undef }).id = .str "abc" ∧
    (normalizeId
      { id := .undef, _id := .undef, title := .undef,
        description := .undef, completed := .undef }).id = .undef := by
  refine ⟨rfl, ?_, ?_, by decide, by decide, by decide⟩
  · intro h
    simp [normalizeId, jsOr, h]
  · intro h
    simp [normalizeId, jsOr, h]

/-- Witness for amended C10: a falsy numeric id 0 with a string `_id`
normalizes to the `_id` value. -/
theorem id_normalization_truthiness_witness :
    truthy (JSVal.num 0) = false ∧
    (normalizeId
      { id := .num 0, _id := .str "k", title := .undef,
        description := .undef, completed := .undef }).id = .str "k" := by
  have h := (id_normalization_truthiness
    { id := .num 0, _id := .str "k", title := .undef,
      description := .undef, completed := .undef }).2.1 (by decide)
  exact ⟨by decide, h⟩

end TaskManager
